import Mathlib

/-!
Verification of the HomeSeer MCP server's configuration resolver and hub API
adapter (src/config.py, src/server.py), as a shallow embedding in Lean.

JSON values are modelled by an inductive `Json` (integers only for numbers;
no claim involves floats).  Python dictionaries that arise in the code are
string-keyed and are modelled as association lists built only through
`dictSet`/`dictMerge`, which reproduce Python's insert-or-replace semantics
(insertion order preserved, assignment to an existing key replaces in place).
Fallible Python code is modelled in the `Py` monad (`Except PyErr`); the
HTTP layer (`requests.get` + `raise_for_status` + `response.json()`) is an
oracle `Net` mapping the full request-parameter dictionary to either a parsed
JSON body or an HTTP-status / transport failure.
-/

namespace HomeSeer

/-- Parsed JSON values (`json.load` / `response.json()` results). -/
inductive Json where
  | null
  | bool (b : Bool)
  | num (n : Int)
  | str (s : String)
  | arr (xs : List Json)
  | obj (kvs : List (String × Json))

/-- Python exception kinds that the modelled code can raise. -/
inductive PyErr where
  | valueError (msg : String)
  | typeError (msg : String)
  | keyError (key : String)
  | attributeError (msg : String)
  | indexError
  | httpError
  | transportError
deriving DecidableEq, Repr

/-- Result of a piece of Python code: a value or a raised exception. -/
abbrev Py (α : Type) := Except PyErr α

/-- Python truthiness (`if x:`) on modelled JSON values. -/
def truthy : Json → Bool
  | .null => false
  | .bool b => b
  | .num n => n != 0
  | .str s => s != ""
  | .arr xs => !xs.isEmpty
  | .obj kvs => !kvs.isEmpty

/-- Models Python `x is None` for an optional value stored in a field. -/
def isNone : Json → Bool
  | .null => true
  | _ => false

/-- A Python dict with string keys (the only kind the modelled code builds). -/
abbrev PyDict := List (String × Json)

/-- First-match lookup.  Dicts built via `dictSet`/`dictMerge` from `[]`
have unique keys, so first match agrees with Python's lookup. -/
def dlookup : PyDict → String → Option Json
  | [], _ => none
  | (k, v) :: rest, key => if k = key then some v else dlookup rest key

/-- Whether a key is present in the dict. -/
def hasKey (d : PyDict) (k : String) : Bool :=
  d.any (fun p => p.1 = k)

/-- Python dict assignment `d[k] = v`: replace in place if the key exists,
otherwise append (insertion order). -/
def dictSet (d : PyDict) (k : String) (v : Json) : PyDict :=
  if hasKey d k then d.map (fun p => if p.1 = k then (k, v) else p)
  else d ++ [(k, v)]

/-- Python `d.update(e)` for a dict argument `e`: set each of `e`'s items in
iteration order. -/
def dictMerge (d : PyDict) (e : PyDict) : PyDict :=
  e.foldl (fun acc p => dictSet acc p.1 p.2) d

/-- Lookup in the string-keyed association list of a `Json.obj`. -/
def slookup : List (String × Json) → String → Option Json
  | [], _ => none
  | (k, v) :: rest, key => if k = key then some v else slookup rest key

/-- Python `d.get(k, dflt)` on a JSON value: works on dicts, raises
`AttributeError` on anything else. -/
def dictGet (j : Json) (k : String) (dflt : Json) : Py Json :=
  match j with
  | .obj kvs => .ok ((slookup kvs k).getD dflt)
  | _ => .error (.attributeError "get")

/-- Python subscript `d[k]` with a string key: `KeyError` when missing,
`TypeError` on a non-dict. -/
def pySubscript (j : Json) (k : String) : Py Json :=
  match j with
  | .obj kvs =>
      match slookup kvs k with
      | some v => .ok v
      | none => .error (.keyError k)
  | _ => .error (.typeError "object is not subscriptable")

/-- Python subscript `xs[0]`. -/
def pyIndex0 (j : Json) : Py Json :=
  match j with
  | .arr (x :: _) => .ok x
  | .arr [] => .error .indexError
  | .str s =>
      match s.data with
      | c :: _ => .ok (.str (String.mk [c]))
      | [] => .error .indexError
  | _ => .error (.typeError "object is not subscriptable")

/-- Python iteration `for x in j`. -/
def pyIter : Json → Py (List Json)
  | .arr xs => .ok xs
  | .str s => .ok (s.data.map (fun c => .str (String.mk [c])))
  | .obj kvs => .ok (kvs.map (fun p => .str p.1))
  | _ => .error (.typeError "object is not iterable")

/-- `startsWithChars n h`: `n` is a prefix of the character list `h`. -/
def startsWithChars : List Char → List Char → Bool
  | [], _ => true
  | _ :: _, [] => false
  | a :: as, b :: bs => a == b && startsWithChars as bs

/-- `hasSubChars n h`: `n` occurs contiguously inside `h`. -/
def hasSubChars (n : List Char) : List Char → Bool
  | [] => startsWithChars n []
  | h :: t => startsWithChars n (h :: t) || hasSubChars n t

/-- Python substring test `needle in hay`. -/
def pyContains (needle hay : String) : Bool :=
  hasSubChars needle.data hay.data

/-- Python `s.lower()` (ASCII case mapping). -/
def pyLower (s : String) : String :=
  String.mk (s.data.map Char.toLower)

/-- Strip trailing `'/'` characters (Python `url.rstrip("/")`). -/
def pyRstripSlash (s : String) : String :=
  String.mk ((s.data.reverse.dropWhile (· == '/')).reverse)

/-- Digit run for `int()`: nonempty digits, single underscores allowed
between digits (Python 3 literal grammar). -/
def pyDigits : List Char → Option Nat
  | [] => none
  | c :: cs => if c.isDigit then go (c.toNat - 48) cs else none
where
  go : Nat → List Char → Option Nat
    | acc, [] => some acc
    | acc, '_' :: c :: cs =>
        if c.isDigit then go (acc * 10 + (c.toNat - 48)) cs else none
    | acc, c :: cs =>
        if c.isDigit then go (acc * 10 + (c.toNat - 48)) cs else none

/-- Strip leading and trailing whitespace from a character list (the
whitespace handling of Python `int(str)`). -/
def stripWs (l : List Char) : List Char :=
  ((l.dropWhile Char.isWhitespace).reverse.dropWhile Char.isWhitespace).reverse

/-- Python `int(s)` on a string: strip whitespace, optional sign, digit run;
`none` models a raised `ValueError`. -/
def pyInt (s : String) : Option Int :=
  match stripWs s.data with
  | '+' :: rest => (pyDigits rest).map (fun n => (n : Int))
  | '-' :: rest => (pyDigits rest).map (fun n => -(n : Int))
  | rest => (pyDigits rest).map (fun n => (n : Int))

/-! ## src/config.py -/

/-- `HomeSeerConfig` (src/config.py).  A Python dataclass performs no runtime
type validation, so each field holds whatever JSON value the merged
configuration dictionary supplied; the declared defaults appear here as
default field values. -/
structure HomeSeerConfig where
  url : Json := .str "https://connected2.homeseer.com/json"
  username : Json := .null
  password : Json := .null
  token : Json := .null
  source : Json := .str "homeseer-mcp"
  timeout : Json := .num 30
  verify_ssl : Json := .bool true

/-- `HomeSeerConfig.get_auth_params` (src/config.py lines 39-56). -/
def get_auth_params (c : HomeSeerConfig) : PyDict :=
  if truthy c.token then [("token", c.token)]
  else if truthy c.username && truthy c.password then
    [("user", c.username), ("pass", c.password)]
  else []

/-- `HomeSeerConfig.get_request_params` (src/config.py lines 58-71). -/
def get_request_params (c : HomeSeerConfig) (kwargs : PyDict) : PyDict :=
  dictMerge (dictMerge [("source", c.source)] (get_auth_params c)) kwargs

/-- `HomeSeerConfig.base_url` (src/config.py lines 73-76): `url.rstrip("/")`;
raises `AttributeError` when the configured url is not a string. -/
def base_url (c : HomeSeerConfig) : Py Json :=
  match c.url with
  | .str s => .ok (.str (pyRstripSlash s))
  | _ => .error (.attributeError "rstrip")

/-- State of the configuration file as `ConfigManager._load_from_file`
observes it. -/
inductive FileState where
  | missing
  | unreadable
  | badJson
  | parsed (j : Json)

/-- `ConfigManager._load_from_file` (src/config.py lines 123-144): the parsed
JSON value on success (any shape), `{}` on every failure path. -/
def loadFromFile : FileState → Json
  | .missing => .obj []
  | .unreadable => .obj []
  | .badJson => .obj []
  | .parsed j => j

/-- The process environment: variable name to optional string value. -/
abbrev Env := String → Option String

/-- Environment-variable suffix to configuration key, in the iteration order
of the `env_mappings` dict (src/config.py lines 165-173). -/
def envMappings : List (String × String) :=
  [("URL", "url"), ("USERNAME", "username"), ("PASSWORD", "password"),
   ("TOKEN", "token"), ("SOURCE", "source"), ("TIMEOUT", "timeout"),
   ("VERIFY_SSL", "verify_ssl")]

/-- Boolean coercion for `HOMESEER_VERIFY_SSL`
(src/config.py line 188). -/
def parseVerifySsl (v : String) : Bool :=
  pyLower v == "true" || pyLower v == "1" || pyLower v == "yes" ||
    pyLower v == "on"

/-- One iteration of the loop in `ConfigManager._load_from_env`
(src/config.py lines 175-191). -/
def envStep (env : Env) (cfg : PyDict) (m : String × String) : PyDict :=
  match env ("HOMESEER_" ++ m.1) with
  | none => cfg
  | some v =>
      if m.2 = "timeout" then
        match pyInt v with
        | some n => dictSet cfg m.2 (.num n)
        | none => cfg
      else if m.2 = "verify_ssl" then
        dictSet cfg m.2 (.bool (parseVerifySsl v))
      else dictSet cfg m.2 (.str v)

/-- `ConfigManager._load_from_env` (src/config.py lines 146-193). -/
def loadFromEnv (env : Env) : PyDict :=
  envMappings.foldl (envStep env) []

/-- Elements of a sequence given to `dict.update`, as (key, value) pairs;
the error cases mirror CPython's merge-from-sequence checks. -/
def seqPairs : List Json → Py PyDict
  | [] => .ok []
  | .arr [.str k, v] :: rest => (seqPairs rest).map (fun ps => (k, v) :: ps)
  | .arr [_, _] :: _ => .error (.typeError "keywords must be strings")
  | .arr _ :: _ =>
      .error (.valueError "dictionary update sequence element has wrong length")
  | .str s :: rest =>
      match s.data with
      | [a, b] =>
          (seqPairs rest).map
            (fun ps => (String.mk [a], Json.str (String.mk [b])) :: ps)
      | _ =>
          .error
            (.valueError "dictionary update sequence element has wrong length")
  | _ :: _ =>
      .error (.typeError "cannot convert dictionary update sequence element")

/-- Python `d.update(j)` where `j` is an arbitrary parsed JSON value
(`config_dict.update(file_config)`, src/config.py line 212).  A JSON object
merges; a list is treated as a sequence of key/value pairs; anything else is
not iterable.  A sequence pair whose key is not a string is reported here as
the `TypeError` that Python would raise later at the `**config_dict` call —
the composite behaviour of `load_config` is identical. -/
def pyDictUpdate (d : PyDict) (j : Json) : Py PyDict :=
  match j with
  | .obj kvs => .ok (dictMerge d kvs)
  | .arr xs => (seqPairs xs).map (dictMerge d)
  | .str s =>
      if s.isEmpty then .ok d
      else .error (.valueError "dictionary update sequence element has wrong length")
  | _ => .error (.typeError "object is not iterable")

/-- The seven dataclass field names accepted by `HomeSeerConfig(**kwargs)`. -/
def configFields : List String :=
  ["url", "username", "password", "token", "source", "timeout", "verify_ssl"]

/-- Keyword check performed by the call `HomeSeerConfig(**config_dict)`
(src/config.py line 219): an unrecognized key raises `TypeError`. -/
def kwargsCheck : PyDict → Option PyErr
  | [] => none
  | (k, _) :: rest =>
      if configFields.contains k then kwargsCheck rest
      else some (.typeError ("unexpected keyword argument " ++ k))

/-- Build the dataclass from a keyword dictionary whose keys were accepted:
each field takes the supplied value or the declared default. -/
def configOfDict (d : PyDict) : HomeSeerConfig where
  url := (dlookup d "url").getD (.str "https://connected2.homeseer.com/json")
  username := (dlookup d "username").getD .null
  password := (dlookup d "password").getD .null
  token := (dlookup d "token").getD .null
  source := (dlookup d "source").getD (.str "homeseer-mcp")
  timeout := (dlookup d "timeout").getD (.num 30)
  verify_ssl := (dlookup d "verify_ssl").getD (.bool true)

/-- `HomeSeerConfig(**config_dict)` (src/config.py line 219). -/
def mkHomeSeerConfig (d : PyDict) : Py HomeSeerConfig :=
  match kwargsCheck d with
  | some e => .error e
  | none => .ok (configOfDict d)

/-- `ConfigManager.load_config` (src/config.py lines 195-230): start from an
empty dict, `update` with the file layer, `update` with the environment
layer, construct the dataclass.  (The trailing logging has no effect on the
returned value.) -/
def loadConfig (fs : FileState) (env : Env) : Py HomeSeerConfig :=
  match pyDictUpdate [] (loadFromFile fs) with
  | .error e => .error e
  | .ok d1 => mkHomeSeerConfig (dictMerge d1 (loadFromEnv env))

/-- Field projection by configuration key name. -/
def fieldValue (c : HomeSeerConfig) : String → Json
  | "url" => c.url
  | "username" => c.username
  | "password" => c.password
  | "token" => c.token
  | "source" => c.source
  | "timeout" => c.timeout
  | "verify_ssl" => c.verify_ssl
  | _ => .null

/-- Built-in default by configuration key name. -/
def defaultValue : String → Json
  | "url" => .str "https://connected2.homeseer.com/json"
  | "source" => .str "homeseer-mcp"
  | "timeout" => .num 30
  | "verify_ssl" => .bool true
  | _ => .null

/-! ## src/server.py -/

/-- Outcome of one HTTP round trip, as `HomeSeerAPIClient._make_request`
observes it: a non-2xx status (`raise_for_status`) or a network-level
failure (`requests` exceptions, including a body that fails to parse). -/
inductive NetErr where
  | httpError
  | transportError
deriving DecidableEq, Repr

/-- The network oracle: full request-parameter dictionary to response. -/
abbrev Net := PyDict → Except NetErr Json

/-- Embed a network failure into the Python exception it surfaces as. -/
def ofNetErr : NetErr → PyErr
  | .httpError => .httpError
  | .transportError => .transportError

/-- `HomeSeerAPIClient._make_request` (src/server.py lines 38-67): builds the
request parameters via `get_request_params` and performs one GET. -/
def make_request (c : HomeSeerConfig) (net : Net) (params : PyDict) : Py Json :=
  match net (get_request_params c params) with
  | .ok j => .ok j
  | .error e => .error (ofNetErr e)

/-- Python `str(j)` as used in error message interpolation; the rendering of
containers is abridged (no claim evaluates it on a container). -/
def pyStrOf : Json → String
  | .null => "None"
  | .bool true => "True"
  | .bool false => "False"
  | .num n => toString n
  | .str s => s
  | .arr _ => "[...]"
  | .obj _ => "\x7b...\x7d"

/-- `HomeSeerAPIClient.get_all_devices` (src/server.py lines 69-77). -/
def get_all_devices (c : HomeSeerConfig) (net : Net) : Py Json :=
  match make_request c net [("request", .str "getstatus")] with
  | .error e => .error e
  | .ok data => dictGet data "Devices" (.arr [])

/-- `HomeSeerAPIClient.get_device_by_ref` (src/server.py lines 79-98).
The device ref is modelled as a JSON value because call sites pass both
strings and integers through unchanged. -/
def get_device_by_ref (c : HomeSeerConfig) (net : Net) (device_ref : Json) :
    Py Json :=
  match make_request c net
      [("request", .str "getstatus"), ("ref", device_ref)] with
  | .error e => .error e
  | .ok data =>
      match dictGet data "Devices" (.arr []) with
      | .error e => .error e
      | .ok devices =>
          if truthy devices then pyIndex0 devices
          else
            .error (.valueError
              ("Device with ref " ++ pyStrOf device_ref ++ " not found"))

/-- `HomeSeerAPIClient.run_event` (src/server.py lines 163-191).  Returns the
list of issued HTTP requests (each the full parameter dictionary) together
with the Python result. -/
def client_run_event (c : HomeSeerConfig) (net : Net)
    (group name : Option String) (event_id : Option Int) :
    List PyDict × Py Bool :=
  match event_id with
  | some i =>
      let ps : PyDict := [("request", .str "runevent"), ("id", .num i)]
      ([get_request_params c ps],
        match make_request c net ps with
        | .error e => .error e
        | .ok _ => .ok true)
  | none =>
      match group, name with
      | some g, some n =>
          let ps : PyDict :=
            [("request", .str "runevent"), ("group", .str g),
             ("name", .str n)]
          ([get_request_params c ps],
            match make_request c net ps with
            | .error e => .error e
            | .ok _ => .ok true)
      | _, _ =>
          ([], .error (.valueError
            "Must provide either event_id OR both group and name"))

/-- `HomeSeerMCPServer.run_event` (src/server.py lines 272-296): delegates to
the client; the surrounding logging does not affect the result. -/
def server_run_event (c : HomeSeerConfig) (net : Net)
    (group name : Option String) (event_id : Option Int) :
    List PyDict × Py Bool :=
  client_run_event c net group name event_id

/-- The filter predicate of `list_all_devices` (src/server.py lines 316-319):
`search_lower in device.get("name", "").lower()`. -/
def deviceNameMatches (search_lower : String) (device : Json) : Py Bool :=
  match dictGet device "name" (.str "") with
  | .error e => .error e
  | .ok (.str s) => .ok (pyContains search_lower (pyLower s))
  | .ok _ => .error (.attributeError "lower")

/-- A Python list-comprehension filter: evaluates the predicate left to
right, propagating the first raised exception. -/
def pyFilter (p : Json → Py Bool) : List Json → Py (List Json)
  | [] => .ok []
  | x :: xs =>
      match p x with
      | .error e => .error e
      | .ok b =>
          match pyFilter p xs with
          | .error e => .error e
          | .ok rest => .ok (if b then x :: rest else rest)

/-- A Python list-comprehension map: left to right, first exception wins. -/
def pyMapM (f : Json → Py Json) : List Json → Py (List Json)
  | [] => .ok []
  | x :: xs =>
      match f x with
      | .error e => .error e
      | .ok y =>
          match pyMapM f xs with
          | .error e => .error e
          | .ok rest => .ok (y :: rest)

/-- The `need_room_information` item shape (src/server.py lines 323-331):
`device["ref"]` and `device["name"]` unconditionally, locations defaulted. -/
def formatDeviceRoom (device : Json) : Py Json :=
  match pySubscript device "ref" with
  | .error e => .error e
  | .ok r =>
      match pySubscript device "name" with
      | .error e => .error e
      | .ok n =>
          match dictGet device "location" (.str "") with
          | .error e => .error e
          | .ok l =>
              match dictGet device "location2" (.str "") with
              | .error e => .error e
              | .ok l2 =>
                  .ok (.obj [("ref", r), ("name", n), ("location", l),
                             ("location2", l2)])

/-- The default item shape (src/server.py lines 333-339). -/
def formatDeviceBasic (device : Json) : Py Json :=
  match pySubscript device "ref" with
  | .error e => .error e
  | .ok r =>
      match pySubscript device "name" with
      | .error e => .error e
      | .ok n => .ok (.obj [("ref", r), ("name", n)])

/-- `HomeSeerMCPServer.list_all_devices` (src/server.py lines 298-342).
`if free_text_search:` is Python truthiness, so `none` and the empty string
both skip the filter. -/
def list_all_devices (c : HomeSeerConfig) (net : Net)
    (free_text_search : Option String) (need_room_information : Bool) :
    Py Json :=
  match get_all_devices c net with
  | .error e => .error e
  | .ok devices0 =>
      let filtered : Py Json :=
        match free_text_search with
        | some s =>
            if s = "" then .ok devices0
            else
              match pyIter devices0 with
              | .error e => .error e
              | .ok items =>
                  match pyFilter (deviceNameMatches (pyLower s)) items with
                  | .error e => .error e
                  | .ok kept => .ok (.arr kept)
        | none => .ok devices0
      match filtered with
      | .error e => .error e
      | .ok devices =>
          match pyIter devices with
          | .error e => .error e
          | .ok items =>
              match pyMapM
                  (if need_room_information then formatDeviceRoom
                   else formatDeviceBasic) items with
              | .error e => .error e
              | .ok result => .ok (.arr result)

/-- `HomeSeerMCPServer.get_device_info` (src/server.py lines 344-361):
projects the found device with `device.get(k)` (`None` default). -/
def get_device_info (c : HomeSeerConfig) (net : Net) (device_ref : Json) :
    Py Json :=
  match get_device_by_ref c net device_ref with
  | .error e => .error e
  | .ok device =>
      match dictGet device "name" .null with
      | .error e => .error e
      | .ok nm =>
          match dictGet device "location" .null with
          | .error e => .error e
          | .ok l =>
              match dictGet device "location2" .null with
              | .error e => .error e
              | .ok l2 =>
                  match dictGet device "value" .null with
                  | .error e => .error e
                  | .ok v =>
                      match dictGet device "status" .null with
                      | .error e => .error e
                      | .ok st =>
                          match dictGet device "associated_devices" .null with
                          | .error e => .error e
                          | .ok ad =>
                              .ok (.obj
                                [("name", nm), ("location", l),
                                 ("location2", l2), ("value", v),
                                 ("status", st),
                                 ("associated_devices", ad)])

/-! ## Dictionary lemmas -/

/-- Left-biased choice on optional values (layer precedence). -/
def oor (a b : Option Json) : Option Json :=
  match a with
  | some v => some v
  | none => b

theorem oor_none_right (a : Option Json) : oor a none = a := by
  cases a <;> rfl

theorem oor_none_left (b : Option Json) : oor none b = b := rfl

/-- The keys of a dict, in insertion order. -/
def keysOf (d : PyDict) : List String := d.map Prod.fst

theorem dlookup_append (d e : PyDict) (k : String) :
    dlookup (d ++ e) k = oor (dlookup d k) (dlookup e k) := by
  induction d with
  | nil => rfl
  | cons p rest ih =>
      obtain ⟨k2, v⟩ := p
      by_cases h : k2 = k <;> simp [dlookup, h, ih, oor]

theorem dlookup_eq_none_of_not_mem (d : PyDict) (k : String)
    (h : k ∉ keysOf d) : dlookup d k = none := by
  induction d with
  | nil => rfl
  | cons p rest ih =>
      obtain ⟨k2, v⟩ := p
      simp [keysOf] at h
      simp [dlookup, Ne.symm h.1, ih (by simpa [keysOf] using h.2)]

theorem hasKey_false_not_mem (d : PyDict) (k : String)
    (h : hasKey d k = false) : k ∉ keysOf d := by
  induction d with
  | nil => simp [keysOf]
  | cons p rest ih =>
      simp only [hasKey, List.any_cons, Bool.or_eq_false_iff,
        decide_eq_false_iff_not] at h
      simp only [keysOf, List.map_cons, List.mem_cons, not_or]
      exact ⟨fun hk => h.1 hk.symm,
        by simpa [keysOf] using ih (by simpa [hasKey] using h.2)⟩

theorem dlookup_replace_ne (d : PyDict) (k k' : String) (v : Json)
    (h : k' ≠ k) :
    dlookup (d.map (fun p => if p.1 = k then (k, v) else p)) k' =
      dlookup d k' := by
  induction d with
  | nil => rfl
  | cons p rest ih =>
      obtain ⟨k2, v2⟩ := p
      simp only [List.map_cons]
      by_cases h2 : k2 = k
      · subst h2
        rw [if_pos rfl]
        simp only [dlookup]
        rw [if_neg (fun hk : k2 = k' => h hk.symm),
            if_neg (fun hk : k2 = k' => h hk.symm), ih]
      · rw [if_neg h2]
        simp only [dlookup, ih]

theorem dlookup_replace_self (d : PyDict) (k : String) (v : Json)
    (h : hasKey d k = true) :
    dlookup (d.map (fun p => if p.1 = k then (k, v) else p)) k = some v := by
  induction d with
  | nil => simp [hasKey] at h
  | cons p rest ih =>
      obtain ⟨k2, v2⟩ := p
      simp only [List.map_cons]
      by_cases h2 : k2 = k
      · subst h2
        rw [if_pos rfl]
        simp [dlookup]
      · rw [if_neg h2]
        simp only [dlookup]
        rw [if_neg (fun hk : k2 = k => h2 hk)]
        apply ih
        simp only [hasKey, List.any_cons, Bool.or_eq_true,
          decide_eq_true_eq] at h
        rcases h with h | h
        · exact absurd h h2
        · simpa [hasKey] using h

theorem dlookup_dictSet_self (d : PyDict) (k : String) (v : Json) :
    dlookup (dictSet d k v) k = some v := by
  unfold dictSet
  by_cases h : hasKey d k
  · simp [h, dlookup_replace_self d k v h]
  · simp only [Bool.not_eq_true] at h
    simp [h, dlookup_append, dlookup, oor,
      dlookup_eq_none_of_not_mem d k (hasKey_false_not_mem d k h)]

theorem dlookup_dictSet_ne (d : PyDict) (k k' : String) (v : Json)
    (h : k' ≠ k) : dlookup (dictSet d k v) k' = dlookup d k' := by
  unfold dictSet
  by_cases hk : hasKey d k
  · simp [hk, dlookup_replace_ne d k k' v h]
  · simp only [Bool.not_eq_true] at hk
    simp only [hk, Bool.false_eq_true, if_false, dlookup_append, dlookup]
    rw [if_neg (fun hk2 : k = k' => h hk2.symm), oor_none_right]

theorem keysOf_replace (d : PyDict) (k : String) (v : Json) :
    keysOf (d.map (fun p => if p.1 = k then (k, v) else p)) = keysOf d := by
  induction d with
  | nil => rfl
  | cons p rest ih =>
      obtain ⟨k2, v2⟩ := p
      simp only [keysOf, List.map_cons] at ih ⊢
      rw [ih]
      by_cases h2 : k2 = k
      · subst h2; rw [if_pos rfl]
      · rw [if_neg h2]

theorem keysOf_dictSet_replace (d : PyDict) (k : String) (v : Json)
    (h : hasKey d k = true) : keysOf (dictSet d k v) = keysOf d := by
  unfold dictSet
  simp only [h, if_true]
  exact keysOf_replace d k v

theorem keysOf_dictSet_append (d : PyDict) (k : String) (v : Json)
    (h : hasKey d k = false) : keysOf (dictSet d k v) = keysOf d ++ [k] := by
  simp [dictSet, h, keysOf]

theorem nodupKeys_dictSet (d : PyDict) (k : String) (v : Json)
    (h : (keysOf d).Nodup) : (keysOf (dictSet d k v)).Nodup := by
  by_cases hk : hasKey d k
  · rw [keysOf_dictSet_replace d k v hk]; exact h
  · rw [keysOf_dictSet_append d k v (by simpa using hk)]
    have := hasKey_false_not_mem d k (by simpa using hk)
    simp [List.nodup_append, h, this]

theorem dlookup_dictMerge (d e : PyDict) (k : String)
    (he : (keysOf e).Nodup) :
    dlookup (dictMerge d e) k = oor (dlookup e k) (dlookup d k) := by
  induction e generalizing d with
  | nil => rfl
  | cons p rest ih =>
      obtain ⟨k2, v⟩ := p
      simp only [keysOf, List.map_cons, List.nodup_cons] at he
      have step : dictMerge d ((k2, v) :: rest) =
          dictMerge (dictSet d k2 v) rest := rfl
      rw [step, ih (dictSet d k2 v) (by simpa [keysOf] using he.2)]
      by_cases hk : k = k2
      · subst hk
        rw [dlookup_eq_none_of_not_mem rest k (by simpa [keysOf] using he.1)]
        simp [dlookup, oor, dlookup_dictSet_self]
      · simp [dlookup, Ne.symm hk, dlookup_dictSet_ne d k2 k v hk]

/-! ## Environment-layer and keyword-check lemmas -/

theorem envStep_cases (env : Env) (acc : PyDict) (m : String × String) :
    envStep env acc m = acc ∨
      ∃ v, envStep env acc m = dictSet acc m.2 v := by
  unfold envStep
  cases env ("HOMESEER_" ++ m.1) with
  | none => exact Or.inl rfl
  | some v =>
      by_cases ht : m.2 = "timeout"
      · simp only [ht, if_true]
        cases pyInt v with
        | none => exact Or.inl rfl
        | some n => exact Or.inr ⟨.num n, rfl⟩
      · by_cases hs : m.2 = "verify_ssl"
        · simp only [ht, if_false, hs, if_true]
          exact Or.inr ⟨.bool (parseVerifySsl v), rfl⟩
        · simp only [ht, if_false, hs, if_false]
          exact Or.inr ⟨.str v, rfl⟩

theorem dlookup_envFold_of_not_mem (env : Env) (ms : List (String × String))
    (acc : PyDict) (k : String) (h : ∀ m ∈ ms, m.2 ≠ k) :
    dlookup (ms.foldl (envStep env) acc) k = dlookup acc k := by
  induction ms generalizing acc with
  | nil => rfl
  | cons m rest ih =>
      rw [List.foldl_cons,
        ih (envStep env acc m) (fun m2 hm2 => h m2 (List.mem_cons_of_mem m hm2))]
      rcases envStep_cases env acc m with hc | ⟨v, hc⟩
      · rw [hc]
      · rw [hc, dlookup_dictSet_ne acc m.2 k v
          (fun hk => h m (List.mem_cons_self m rest) hk.symm)]

theorem nodupKeys_envFold (env : Env) (ms : List (String × String))
    (acc : PyDict) (h : (keysOf acc).Nodup) :
    (keysOf (ms.foldl (envStep env) acc)).Nodup := by
  induction ms generalizing acc with
  | nil => exact h
  | cons m rest ih =>
      rw [List.foldl_cons]
      apply ih
      rcases envStep_cases env acc m with hc | ⟨v, hc⟩
      · rw [hc]; exact h
      · rw [hc]; exact nodupKeys_dictSet acc m.2 v h

theorem nodupKeys_loadFromEnv (env : Env) :
    (keysOf (loadFromEnv env)).Nodup :=
  nodupKeys_envFold env envMappings [] (by simp [keysOf])

theorem dlookup_loadFromEnv_timeout_none (env : Env) (v : String)
    (henv : env "HOMESEER_TIMEOUT" = some v) (hp : pyInt v = none) :
    dlookup (loadFromEnv env) "timeout" = none := by
  have hsplit : envMappings =
      [("URL", "url"), ("USERNAME", "username"), ("PASSWORD", "password"),
       ("TOKEN", "token"), ("SOURCE", "source")] ++
      (("TIMEOUT", "timeout") ::
       [("VERIFY_SSL", "verify_ssl")]) := rfl
  rw [loadFromEnv, hsplit, List.foldl_append, List.foldl_cons]
  rw [dlookup_envFold_of_not_mem env [("VERIFY_SSL", "verify_ssl")] _ "timeout"
    (by intro m hm; simp at hm; simp [hm])]
  have hstep : envStep env
      (List.foldl (envStep env) []
        [("URL", "url"), ("USERNAME", "username"), ("PASSWORD", "password"),
         ("TOKEN", "token"), ("SOURCE", "source")]) ("TIMEOUT", "timeout") =
      List.foldl (envStep env) []
        [("URL", "url"), ("USERNAME", "username"), ("PASSWORD", "password"),
         ("TOKEN", "token"), ("SOURCE", "source")] := by
    unfold envStep
    rw [show ("HOMESEER_" ++ "TIMEOUT") = "HOMESEER_TIMEOUT" from rfl, henv]
    simp [hp]
  rw [hstep]
  rw [dlookup_envFold_of_not_mem env _ [] "timeout"
    (by intro m hm; simp at hm; rcases hm with h | h | h | h | h <;> simp [h])]
  rfl

theorem okKeys_dictSet (d : PyDict) (k : String) (v : Json)
    (hd : ∀ p ∈ d, p.1 ∈ configFields) (hk : k ∈ configFields) :
    ∀ p ∈ dictSet d k v, p.1 ∈ configFields := by
  intro q hq
  unfold dictSet at hq
  by_cases h : hasKey d k
  · simp only [h, if_true, List.mem_map] at hq
    obtain ⟨p, hp, hq⟩ := hq
    by_cases h2 : p.1 = k
    · rw [← hq, if_pos h2]; exact hk
    · rw [← hq, if_neg h2]; exact hd p hp
  · simp only [Bool.not_eq_true] at h
    simp only [h, Bool.false_eq_true, if_false, List.mem_append,
      List.mem_singleton] at hq
    rcases hq with hq | hq
    · exact hd q hq
    · rw [hq]; exact hk

theorem okKeys_dictMerge (d e : PyDict)
    (hd : ∀ p ∈ d, p.1 ∈ configFields)
    (he : ∀ p ∈ e, p.1 ∈ configFields) :
    ∀ p ∈ dictMerge d e, p.1 ∈ configFields := by
  induction e generalizing d with
  | nil => exact hd
  | cons q rest ih =>
      have step : dictMerge d (q :: rest) =
          dictMerge (dictSet d q.1 q.2) rest := rfl
      rw [step]
      exact ih (dictSet d q.1 q.2)
        (okKeys_dictSet d q.1 q.2 hd (he q (List.mem_cons_self q rest)))
        (fun p hp => he p (List.mem_cons_of_mem q hp))

theorem okKeys_envFold (env : Env) (ms : List (String × String)) (acc : PyDict)
    (hacc : ∀ p ∈ acc, p.1 ∈ configFields)
    (hms : ∀ m ∈ ms, m.2 ∈ configFields) :
    ∀ p ∈ ms.foldl (envStep env) acc, p.1 ∈ configFields := by
  induction ms generalizing acc with
  | nil => exact hacc
  | cons m rest ih =>
      rw [List.foldl_cons]
      apply ih
      · rcases envStep_cases env acc m with hc | ⟨v, hc⟩
        · rw [hc]; exact hacc
        · rw [hc]
          exact okKeys_dictSet acc m.2 v hacc
            (hms m (List.mem_cons_self m rest))
      · exact fun m2 hm2 => hms m2 (List.mem_cons_of_mem m hm2)

theorem okKeys_loadFromEnv (env : Env) :
    ∀ p ∈ loadFromEnv env, p.1 ∈ configFields :=
  okKeys_envFold env envMappings [] (by simp) (by decide)

theorem kwargsCheck_eq_none (d : PyDict)
    (h : ∀ p ∈ d, p.1 ∈ configFields) : kwargsCheck d = none := by
  induction d with
  | nil => rfl
  | cons p rest ih =>
      obtain ⟨k, v⟩ := p
      have hk : configFields.contains k = true :=
        List.elem_eq_true_of_mem (h (k, v) (List.mem_cons_self _ rest))
      simp only [kwargsCheck, hk, if_true]
      exact ih (fun q hq => h q (List.mem_cons_of_mem _ hq))

theorem fieldValue_configOfDict (d : PyDict) (k : String)
    (hk : k ∈ configFields) :
    fieldValue (configOfDict d) k = (dlookup d k).getD (defaultValue k) := by
  simp only [configFields, List.mem_cons, List.not_mem_nil, or_false] at hk
  rcases hk with rfl | rfl | rfl | rfl | rfl | rfl | rfl <;> rfl

/-! ## Shared facts about `loadConfig` -/

theorem loadConfig_ok_of_okKeys (fs : FileState) (env : Env) (kvs : PyDict)
    (hfile : loadFromFile fs = .obj kvs)
    (hok : ∀ p ∈ kvs, p.1 ∈ configFields) :
    loadConfig fs env =
      .ok (configOfDict (dictMerge (dictMerge [] kvs) (loadFromEnv env))) := by
  have hok1 : ∀ p ∈ dictMerge [] kvs, p.1 ∈ configFields :=
    okKeys_dictMerge [] kvs (by simp) hok
  have hok2 : ∀ p ∈ dictMerge (dictMerge [] kvs) (loadFromEnv env),
      p.1 ∈ configFields :=
    okKeys_dictMerge _ _ hok1 (okKeys_loadFromEnv env)
  unfold loadConfig
  rw [hfile]
  show mkHomeSeerConfig (dictMerge (dictMerge [] kvs) (loadFromEnv env)) = _
  unfold mkHomeSeerConfig
  rw [kwargsCheck_eq_none _ hok2]

theorem loadConfig_resolves (fs : FileState) (env : Env) (kvs : PyDict)
    (hfile : loadFromFile fs = .obj kvs)
    (hok : ∀ p ∈ kvs, p.1 ∈ configFields)
    (hnd : (keysOf kvs).Nodup) :
    ∃ cfg, loadConfig fs env = .ok cfg ∧
      ∀ k ∈ configFields,
        fieldValue cfg k =
          (oor (dlookup (loadFromEnv env) k) (dlookup kvs k)).getD
            (defaultValue k) := by
  refine ⟨_, loadConfig_ok_of_okKeys fs env kvs hfile hok, ?_⟩
  intro k hk
  rw [fieldValue_configOfDict _ k hk]
  congr 1
  rw [dlookup_dictMerge _ (loadFromEnv env) k (nodupKeys_loadFromEnv env)]
  congr 1
  rw [dlookup_dictMerge [] kvs k hnd]
  exact oor_none_right _

/-- Sufficient condition on the file system for `load_config` to return
normally: the file is absent, unreadable or unparseable (treated as an
empty layer), or parses to a JSON object all of whose keys are recognized
configuration fields. -/
def fileLayerOk : FileState → Prop
  | .parsed (.obj kvs) => ∀ p ∈ kvs, p.1 ∈ configFields
  | .parsed _ => False
  | _ => True

/-! ## C2 — load_config error containment -/

/-- C2 (counterexample): `load_config` does propagate an exception for some
parseable file contents: a JSON object with an unrecognized key, and a JSON
list, both make the `HomeSeerConfig(**config_dict)` call (respectively the
`dict.update` call) raise `TypeError`, which no handler catches. -/
theorem load_config_raises_counterexample :
    loadConfig (.parsed (.obj [("foo", .num 1)])) (fun _ => none) =
      .error (.typeError "unexpected keyword argument foo") ∧
    loadConfig (.parsed (.arr [.num 1])) (fun _ => none) =
      .error (.typeError "cannot convert dictionary update sequence element") :=
  ⟨rfl, rfl⟩

/-- C2 (amended): `load_config` propagates no exception provided the config
file is missing, unreadable or malformed (each treated as an empty layer),
or parses to a JSON object whose keys are all recognized configuration
fields; this holds for every environment. -/
theorem load_config_no_exception (fs : FileState) (env : Env)
    (h : fileLayerOk fs) : ∃ cfg, loadConfig fs env = .ok cfg := by
  cases fs with
  | missing => exact ⟨_, loadConfig_ok_of_okKeys _ env [] rfl (by simp)⟩
  | unreadable => exact ⟨_, loadConfig_ok_of_okKeys _ env [] rfl (by simp)⟩
  | badJson => exact ⟨_, loadConfig_ok_of_okKeys _ env [] rfl (by simp)⟩
  | parsed j =>
      cases j with
      | obj kvs => exact ⟨_, loadConfig_ok_of_okKeys _ env kvs rfl h⟩
      | null => exact h.elim
      | bool b => exact h.elim
      | num n => exact h.elim
      | str s => exact h.elim
      | arr xs => exact h.elim

/-- C2 (witness): a concrete well-formed file layer loads without error. -/
theorem load_config_no_exception_witness :
    ∃ cfg,
      loadConfig (.parsed (.obj [("url", .str "http://x"), ("token", .str "t")]))
        (fun _ => none) = .ok cfg :=
  load_config_no_exception _ _
    (show ∀ p ∈ ([("url", Json.str "http://x"), ("token", Json.str "t")] : PyDict),
        p.1 ∈ configFields by decide)

/-! ## C3 — layer precedence -/

/-- C3: for every file layer (a parsed JSON object over recognized keys,
which is exactly what a loadable configuration file supplies) and every
environment, `load_config` succeeds and resolves each configuration field
from the environment layer when present there, else from the file layer
when present there, else from the built-in default. -/
theorem load_config_layer_precedence (fs : FileState) (env : Env)
    (kvs : PyDict) (hfile : loadFromFile fs = .obj kvs)
    (hok : ∀ p ∈ kvs, p.1 ∈ configFields)
    (hnd : (keysOf kvs).Nodup) :
    ∃ cfg, loadConfig fs env = .ok cfg ∧
      ∀ k ∈ configFields,
        fieldValue cfg k =
          match dlookup (loadFromEnv env) k with
          | some v => v
          | none =>
              match dlookup kvs k with
              | some v => v
              | none => defaultValue k := by
  obtain ⟨cfg, hcfg, hfields⟩ := loadConfig_resolves fs env kvs hfile hok hnd
  refine ⟨cfg, hcfg, ?_⟩
  intro k hk
  rw [hfields k hk]
  cases dlookup (loadFromEnv env) k with
  | some v => rfl
  | none => cases dlookup kvs k with
    | some v => rfl
    | none => rfl

/-- C3 (witness): with a file layer supplying url and timeout and an
environment overriding only the url, the resolved url is the environment
value, the timeout is the file value, and the source is the default. -/
theorem load_config_layer_precedence_witness :
    ∃ cfg,
      loadConfig (.parsed (.obj [("url", .str "http://file"), ("timeout", .num 60)]))
        (fun v => if v = "HOMESEER_URL" then some "http://env" else none) =
        .ok cfg ∧
      cfg.url = .str "http://env" ∧ cfg.timeout = .num 60 ∧
      cfg.source = .str "homeseer-mcp" := by
  obtain ⟨cfg, hcfg, hfields⟩ :=
    load_config_layer_precedence
      (.parsed (.obj [("url", .str "http://file"), ("timeout", .num 60)]))
      (fun v => if v = "HOMESEER_URL" then some "http://env" else none)
      [("url", .str "http://file"), ("timeout", .num 60)] rfl
      (by decide) (by decide)
  refine ⟨cfg, hcfg, ?_, ?_, ?_⟩
  · have := hfields "url" (by decide)
    simpa using this
  · have := hfields "timeout" (by decide)
    simpa using this
  · have := hfields "source" (by decide)
    simpa using this

/-! ## C7 — invalid timeout environment value -/

/-- C7 (counterexample): with the timeout environment variable set to a
non-integer string and a file layer supplying timeout 0, the load succeeds
and the resolved timeout is zero — the claim's "timeout is never zero"
fails (the fallback value is whatever the lower layer supplied). -/
theorem invalid_timeout_env_counterexample :
    pyInt "abc" = none ∧
    loadConfig (.parsed (.obj [("timeout", .num 0)]))
        (fun v => if v = "HOMESEER_TIMEOUT" then some "abc" else none) =
      .ok { timeout := Json.num 0 } :=
  ⟨rfl, rfl⟩

/-- C7 (amended): when the timeout environment variable is a string that
does not parse as an integer (and the file layer is a loadable object over
recognized keys), the load still succeeds, the resolved timeout is the
value from the next lower precedence layer (the file value if the file
supplies one, otherwise the default 30), and it is zero only if the file
layer itself supplied zero. -/
theorem invalid_timeout_env_falls_back (fs : FileState) (env : Env)
    (kvs : PyDict) (v : String)
    (hfile : loadFromFile fs = .obj kvs)
    (hok : ∀ p ∈ kvs, p.1 ∈ configFields)
    (hnd : (keysOf kvs).Nodup)
    (henv : env "HOMESEER_TIMEOUT" = some v) (hp : pyInt v = none) :
    ∃ cfg, loadConfig fs env = .ok cfg ∧
      cfg.timeout = (dlookup kvs "timeout").getD (.num 30) ∧
      (dlookup kvs "timeout" = none → cfg.timeout = .num 30) ∧
      (cfg.timeout = .num 0 → dlookup kvs "timeout" = some (.num 0)) := by
  obtain ⟨cfg, hcfg, hfields⟩ := loadConfig_resolves fs env kvs hfile hok hnd
  have ht := hfields "timeout" (by decide)
  rw [dlookup_loadFromEnv_timeout_none env v henv hp] at ht
  have ht2 : cfg.timeout = (dlookup kvs "timeout").getD (.num 30) := ht
  refine ⟨cfg, hcfg, ht2, ?_, ?_⟩
  · intro h0
    rw [ht2, h0]
    rfl
  · intro h0
    rw [ht2] at h0
    cases hdl : dlookup kvs "timeout" with
    | none =>
        rw [hdl] at h0
        simp at h0
    | some t =>
        rw [hdl] at h0
        simp only [Option.getD_some] at h0
        rw [h0]

/-- C7 (witness): file layer without a timeout key, invalid timeout in the
environment: the load succeeds and timeout resolves to the default 30. -/
theorem invalid_timeout_env_witness :
    ∃ cfg,
      loadConfig (.parsed (.obj [("url", .str "http://file")]))
        (fun v => if v = "HOMESEER_TIMEOUT" then some "oops" else none) =
        .ok cfg ∧
      cfg.timeout = Json.num 30 := by
  obtain ⟨cfg, hcfg, _, h30, _⟩ :=
    invalid_timeout_env_falls_back (.parsed (.obj [("url", .str "http://file")]))
      (fun v => if v = "HOMESEER_TIMEOUT" then some "oops" else none)
      [("url", .str "http://file")] "oops" rfl (by decide) (by decide) rfl rfl
  exact ⟨cfg, hcfg, h30 rfl⟩

/-! ## C1 — authentication parameter selection -/

/-- A configured record whose token is present (it holds a string, not
None) but empty, alongside a complete username/password pair. -/
def emptyTokenConfig : HomeSeerConfig :=
  { token := .str "", username := .str "u", password := .str "p" }

/-- C1 (counterexample): presence of a token (a non-None value) does not
imply the authentication parameter set is exactly the token parameter —
with a present-but-empty token the code falls through to
username/password, because the branch tests Python truthiness, not
presence. -/
theorem get_auth_params_counterexample :
    isNone emptyTokenConfig.token = false ∧
    get_auth_params emptyTokenConfig =
      [("user", .str "u"), ("pass", .str "p")] ∧
    get_auth_params emptyTokenConfig ≠ [("token", emptyTokenConfig.token)] := by
  refine ⟨rfl, rfl, ?_⟩
  intro h
  simp [emptyTokenConfig, get_auth_params, truthy] at h

/-- C1 (amended): with presence read as Python truthiness (a non-empty
value), the authentication parameter set is exactly the token parameter
when the token is truthy; exactly user and pass when the token is not
truthy but username and password both are; and empty otherwise — and it is
never a mix of the two schemes. -/
theorem get_auth_params_single_scheme (c : HomeSeerConfig) :
    (truthy c.token = true → get_auth_params c = [("token", c.token)]) ∧
    (truthy c.token = false → (truthy c.username && truthy c.password) = true →
      get_auth_params c = [("user", c.username), ("pass", c.password)]) ∧
    (truthy c.token = false → (truthy c.username && truthy c.password) = false →
      get_auth_params c = []) ∧
    ¬(hasKey (get_auth_params c) "token" = true ∧
      hasKey (get_auth_params c) "user" = true) := by
  refine ⟨?_, ?_, ?_, ?_⟩
  · intro h; simp [get_auth_params, h]
  · intro h hb; simp [get_auth_params, h, hb]
  · intro h hb; simp [get_auth_params, h, hb]
  · rintro ⟨h1, h2⟩
    by_cases ht : truthy c.token
    · rw [show get_auth_params c = [("token", c.token)] from by
        simp [get_auth_params, ht]] at h2
      simp [hasKey] at h2
    · simp only [Bool.not_eq_true] at ht
      by_cases hb : (truthy c.username && truthy c.password) = true
      · rw [show get_auth_params c = [("user", c.username), ("pass", c.password)]
          from by simp [get_auth_params, ht, hb]] at h1
        simp [hasKey] at h1
      · rw [show get_auth_params c = [] from by
          simp only [Bool.not_eq_true] at hb
          simp [get_auth_params, ht, hb]] at h1
        simp [hasKey] at h1

/-- C1 (witness): the three regimes at concrete configurations. -/
theorem get_auth_params_witness :
    get_auth_params { token := .str "tok" } = [("token", .str "tok")] ∧
    get_auth_params { username := .str "u", password := .str "p" } =
      [("user", .str "u"), ("pass", .str "p")] ∧
    get_auth_params {} = [] :=
  ⟨(get_auth_params_single_scheme _).1 rfl,
   (get_auth_params_single_scheme _).2.1 rfl rfl,
   (get_auth_params_single_scheme _).2.2.1 rfl rfl⟩

/-! ## C8 — base_url idempotence -/

theorem dropWhile_idem {α : Type} (p : α → Bool) (l : List α) :
    (l.dropWhile p).dropWhile p = l.dropWhile p := by
  induction l with
  | nil => rfl
  | cons a l ih =>
      by_cases h : p a
      · simp [List.dropWhile_cons, h, ih]
      · simp [List.dropWhile_cons, h]

theorem pyRstripSlash_idem (s : String) :
    pyRstripSlash (pyRstripSlash s) = pyRstripSlash s := by
  simp [pyRstripSlash, List.reverse_reverse, dropWhile_idem]

/-- C8: trailing-slash stripping is idempotent: for any record whose url is
a string, `base_url` succeeds, and a record whose url equals that result
has the same `base_url`. -/
theorem base_url_idempotent (c c' : HomeSeerConfig) (s b : String)
    (hc : c.url = .str s) (hb : base_url c = .ok (.str b))
    (hc' : c'.url = .str b) : base_url c' = .ok (.str b) := by
  unfold base_url at hb ⊢
  rw [hc] at hb
  rw [hc']
  have hsb : pyRstripSlash s = b := by
    injection hb with h
    injection h with h2
  rw [← hsb]
  show Except.ok (Json.str (pyRstripSlash (pyRstripSlash s))) =
    Except.ok (Json.str (pyRstripSlash s))
  rw [pyRstripSlash_idem]

/-- C8 (witness): stripping an already-stripped url yields it unchanged. -/
theorem base_url_idempotent_witness :
    base_url { url := Json.str "https://x/json" } = .ok (.str "https://x/json") :=
  base_url_idempotent { url := .str "https://x/json/" }
    { url := .str "https://x/json" } "https://x/json/" "https://x/json"
    rfl (by rfl) rfl

/-! ## Request-parameter lookups -/

theorem nodupKeys_get_auth_params (c : HomeSeerConfig) :
    (keysOf (get_auth_params c)).Nodup := by
  unfold get_auth_params
  by_cases ht : truthy c.token
  · simp [ht, keysOf]
  · by_cases hb : (truthy c.username && truthy c.password) = true
    · simp only [Bool.not_eq_true] at ht
      simp only [ht, Bool.false_eq_true, if_false, hb, if_true]
      simp [keysOf]
    · simp only [Bool.not_eq_true] at ht hb
      simp [ht, hb, keysOf]

theorem dlookup_get_auth_params_other (c : HomeSeerConfig) (k : String)
    (hk1 : k ≠ "token") (hk2 : k ≠ "user") (hk3 : k ≠ "pass") :
    dlookup (get_auth_params c) k = none := by
  unfold get_auth_params
  by_cases ht : truthy c.token
  · simp only [ht, if_true, dlookup]
    rw [if_neg (fun h : "token" = k => hk1 h.symm)]
  · by_cases hb : (truthy c.username && truthy c.password) = true
    · simp only [Bool.not_eq_true] at ht
      simp only [ht, Bool.false_eq_true, if_false, hb, if_true, dlookup]
      rw [if_neg (fun h : "user" = k => hk2 h.symm),
          if_neg (fun h : "pass" = k => hk3 h.symm)]
    · simp only [Bool.not_eq_true] at ht hb
      simp [ht, hb, dlookup]

theorem dlookup_get_request_params (c : HomeSeerConfig) (kwargs : PyDict)
    (k : String) (hnd : (keysOf kwargs).Nodup)
    (hk1 : k ≠ "token") (hk2 : k ≠ "user") (hk3 : k ≠ "pass")
    (hk4 : k ≠ "source") :
    dlookup (get_request_params c kwargs) k = dlookup kwargs k := by
  unfold get_request_params
  rw [dlookup_dictMerge _ kwargs k hnd,
      dlookup_dictMerge _ (get_auth_params c) k (nodupKeys_get_auth_params c),
      dlookup_get_auth_params_other c k hk1 hk2 hk3, oor_none_left]
  have hsrc : dlookup [("source", c.source)] k = none := by
    simp only [dlookup]
    rw [if_neg (fun h : "source" = k => hk4 h.symm)]
  rw [hsrc, oor_none_right]

/-! ## C4 — run_event argument validation -/

/-- C4: `run_event` with no arguments, only `group`, or only `name` fails
with `ValueError` (the invalid-arguments condition) before any HTTP request
is issued (the request trace is empty); with `event_id` alone, or with both
`group` and `name`, it succeeds (when the hub answers) and issues exactly
one request carrying the corresponding parameters. -/
theorem run_event_argument_validation (c : HomeSeerConfig) (net : Net)
    (g n : String) (i : Int) (hnet : ∀ ps, ∃ j, net ps = .ok j) :
    server_run_event c net none none none =
      ([], .error (.valueError
        "Must provide either event_id OR both group and name")) ∧
    server_run_event c net (some g) none none =
      ([], .error (.valueError
        "Must provide either event_id OR both group and name")) ∧
    server_run_event c net none (some n) none =
      ([], .error (.valueError
        "Must provide either event_id OR both group and name")) ∧
    server_run_event c net none none (some i) =
      ([get_request_params c [("request", .str "runevent"), ("id", .num i)]],
        .ok true) ∧
    server_run_event c net (some g) (some n) none =
      ([get_request_params c
          [("request", .str "runevent"), ("group", .str g), ("name", .str n)]],
        .ok true) := by
  refine ⟨rfl, rfl, rfl, ?_, ?_⟩
  · obtain ⟨j, hj⟩ :=
      hnet (get_request_params c [("request", .str "runevent"), ("id", .num i)])
    simp [server_run_event, client_run_event, make_request, hj]
  · obtain ⟨j, hj⟩ :=
      hnet (get_request_params c
        [("request", .str "runevent"), ("group", .str g), ("name", .str n)])
    simp [server_run_event, client_run_event, make_request, hj]

/-- C4 (witness): concrete calls matching the spec's examples. -/
theorem run_event_argument_validation_witness :
    (server_run_event {} (fun _ => .ok .null) none none none).1 = [] ∧
    (server_run_event {} (fun _ => .ok .null) (some "Lighting") none none).2 =
      .error (.valueError
        "Must provide either event_id OR both group and name") ∧
    server_run_event {} (fun _ => .ok .null) none none (some 5) =
      ([get_request_params {} [("request", .str "runevent"), ("id", .num 5)]],
        .ok true) ∧
    (server_run_event {} (fun _ => .ok .null)
      (some "Lighting") (some "Outside Lights Off") none).1.length = 1 := by
  obtain ⟨h1, h2, h3, h4, h5⟩ :=
    run_event_argument_validation {} (fun _ => .ok .null)
      "Lighting" "Outside Lights Off" 5 (fun ps => ⟨.null, rfl⟩)
  exact ⟨by rw [h1], by rw [h2], h4, by rw [h5]; rfl⟩

/-! ## C9 — event_id silently dominates group+name -/

/-- C9: when `event_id` and both `group` and `name` are all supplied, the
call does not fail: it behaves exactly as with `event_id` alone, issuing
exactly one request whose parameters carry the id and no group or name
keys. -/
theorem run_event_id_dominates (c : HomeSeerConfig) (net : Net)
    (g n : String) (i : Int) (hnet : ∀ ps, ∃ j, net ps = .ok j) :
    server_run_event c net (some g) (some n) (some i) =
      ([get_request_params c [("request", .str "runevent"), ("id", .num i)]],
        .ok true) ∧
    server_run_event c net (some g) (some n) (some i) =
      server_run_event c net none none (some i) ∧
    dlookup (get_request_params c
      [("request", .str "runevent"), ("id", .num i)]) "group" = none ∧
    dlookup (get_request_params c
      [("request", .str "runevent"), ("id", .num i)]) "name" = none ∧
    dlookup (get_request_params c
      [("request", .str "runevent"), ("id", .num i)]) "id" = some (.num i) := by
  obtain ⟨j, hj⟩ :=
    hnet (get_request_params c [("request", .str "runevent"), ("id", .num i)])
  have hnd : (keysOf ([("request", Json.str "runevent"),
      ("id", Json.num i)] : PyDict)).Nodup := by
    simp [keysOf]
  refine ⟨?_, rfl, ?_, ?_, ?_⟩
  · simp [server_run_event, client_run_event, make_request, hj]
  · rw [dlookup_get_request_params c _ "group" hnd (by decide) (by decide)
      (by decide) (by decide)]
    rfl
  · rw [dlookup_get_request_params c _ "name" hnd (by decide) (by decide)
      (by decide) (by decide)]
    rfl
  · rw [dlookup_get_request_params c _ "id" hnd (by decide) (by decide)
      (by decide) (by decide)]
    rfl

/-- C9 (witness): a concrete call with all three arguments. -/
theorem run_event_id_dominates_witness :
    server_run_event { token := .str "t" } (fun _ => .ok .null)
        (some "g") (some "n") (some 7) =
      ([get_request_params { token := .str "t" }
          [("request", .str "runevent"), ("id", .num 7)]], .ok true) ∧
    dlookup (get_request_params { token := .str "t" }
      [("request", .str "runevent"), ("id", .num 7)]) "group" = none := by
  obtain ⟨h1, h2, h3, h4, h5⟩ :=
    run_event_id_dominates { token := .str "t" } (fun _ => .ok .null)
      "g" "n" 7 (fun ps => ⟨.null, rfl⟩)
  exact ⟨h1, h3⟩

/-! ## C5 — get_device_by_ref not-found condition -/

/-- C5: when the hub's parsed response carries an empty device list for the
requested ref, `get_device_by_ref` fails with `ValueError` (the not-found
condition), which is distinct from every HTTP-status or transport failure,
and no device is returned; when the list is non-empty it returns the first
device. -/
theorem get_device_by_ref_not_found (c : HomeSeerConfig) (net : Net)
    (device_ref resp : Json)
    (hnet : net (get_request_params c
      [("request", .str "getstatus"), ("ref", device_ref)]) = .ok resp) :
    (dictGet resp "Devices" (.arr []) = .ok (.arr []) →
      get_device_by_ref c net device_ref =
        .error (.valueError
          ("Device with ref " ++ pyStrOf device_ref ++ " not found")) ∧
      ∀ e : NetErr,
        get_device_by_ref c net device_ref ≠ .error (ofNetErr e)) ∧
    (∀ d rest, dictGet resp "Devices" (.arr []) = .ok (.arr (d :: rest)) →
      get_device_by_ref c net device_ref = .ok d) := by
  constructor
  · intro hd
    have hres : get_device_by_ref c net device_ref =
        .error (.valueError
          ("Device with ref " ++ pyStrOf device_ref ++ " not found")) := by
      simp [get_device_by_ref, make_request, hnet, hd, truthy]
    refine ⟨hres, fun e => ?_⟩
    rw [hres]
    cases e <;> simp [ofNetErr]
  · intro d rest hd
    simp [get_device_by_ref, make_request, hnet, hd, truthy, pyIndex0]

/-- C5 (witness): a hub response with an empty device list for ref 999, and
one with a single device for ref 1. -/
theorem get_device_by_ref_not_found_witness :
    get_device_by_ref {} (fun _ => .ok (.obj [("Devices", .arr [])]))
        (.num 999) =
      .error (.valueError "Device with ref 999 not found") ∧
    get_device_by_ref {} (fun _ => .ok (.obj [("Devices", .arr [])]))
        (.num 999) ≠ .error .httpError ∧
    get_device_by_ref {}
        (fun _ => .ok (.obj [("Devices", .arr [.obj [("ref", .num 1)]])]))
        (.num 1) = .ok (.obj [("ref", .num 1)]) := by
  obtain ⟨h1, h2⟩ :=
    (get_device_by_ref_not_found {}
      (fun _ => .ok (.obj [("Devices", .arr [])])) (.num 999) _ rfl).1 rfl
  refine ⟨h1, h2 .httpError, ?_⟩
  exact (get_device_by_ref_not_found {}
    (fun _ => .ok (.obj [("Devices", .arr [.obj [("ref", .num 1)]])]))
    (.num 1) _ rfl).2 (.obj [("ref", .num 1)]) [] rfl

/-! ## C6 — list_all_devices filtering and projection -/

/-- The name of a device record, for devices carrying a string name. -/
def nameOf (d : Json) : String :=
  match d with
  | .obj kvs =>
      match slookup kvs "name" with
      | some (.str s) => s
      | _ => ""
  | _ => ""

/-- The ref value of a device record. -/
def refOf (d : Json) : Json :=
  match d with
  | .obj kvs => (slookup kvs "ref").getD .null
  | _ => .null

/-- A location-style field of a device record, defaulted to the empty
string as the listing code does. -/
def locFieldOf (d : Json) (k : String) : Json :=
  match d with
  | .obj kvs => (slookup kvs k).getD (.str "")
  | _ => .str ""

/-- A device record carrying both a `ref` key and a string `name` key. -/
def wellFormedDevice (d : Json) : Bool :=
  match d with
  | .obj kvs =>
      (slookup kvs "ref").isSome &&
        (match slookup kvs "name" with
         | some (.str _) => true
         | _ => false)
  | _ => false

/-- The devices an optional search string keeps: all of them for no search
or an empty search, otherwise those whose lowercased name contains the
lowercased search string. -/
def matchedDevices (fts : Option String) (ds : List Json) : List Json :=
  match fts with
  | some s =>
      if s = "" then ds
      else ds.filter (fun d => pyContains (pyLower s) (pyLower (nameOf d)))
  | none => ds

theorem deviceNameMatches_ok (s : String) (d : Json)
    (h : wellFormedDevice d = true) :
    deviceNameMatches s d = .ok (pyContains s (pyLower (nameOf d))) := by
  cases d with
  | obj kvs =>
      simp only [wellFormedDevice, Bool.and_eq_true] at h
      cases hn : slookup kvs "name" with
      | none => rw [hn] at h; exact absurd h.2 (by simp)
      | some j =>
          cases j with
          | str s2 => simp [deviceNameMatches, dictGet, hn, nameOf]
          | null => rw [hn] at h; exact absurd h.2 (by simp)
          | bool b => rw [hn] at h; exact absurd h.2 (by simp)
          | num n => rw [hn] at h; exact absurd h.2 (by simp)
          | arr xs => rw [hn] at h; exact absurd h.2 (by simp)
          | obj kvs2 => rw [hn] at h; exact absurd h.2 (by simp)
  | null => simp [wellFormedDevice] at h
  | bool b => simp [wellFormedDevice] at h
  | num n => simp [wellFormedDevice] at h
  | str s2 => simp [wellFormedDevice] at h
  | arr xs => simp [wellFormedDevice] at h

theorem pyFilter_wf (s : String) (ds : List Json)
    (h : ∀ d ∈ ds, wellFormedDevice d = true) :
    pyFilter (deviceNameMatches s) ds =
      .ok (ds.filter (fun d => pyContains s (pyLower (nameOf d)))) := by
  induction ds with
  | nil => rfl
  | cons d rest ih =>
      simp only [pyFilter]
      rw [deviceNameMatches_ok s d (h d (List.mem_cons_self d rest)),
          ih (fun x hx => h x (List.mem_cons_of_mem d hx))]
      cases hb : pyContains s (pyLower (nameOf d)) <;>
        simp [List.filter_cons, hb]

theorem wf_destruct (d : Json) (h : wellFormedDevice d = true) :
    ∃ kvs r nm, d = .obj kvs ∧ slookup kvs "ref" = some r ∧
      slookup kvs "name" = some (.str nm) ∧ refOf d = r ∧ nameOf d = nm := by
  cases d with
  | obj kvs =>
      simp only [wellFormedDevice, Bool.and_eq_true] at h
      cases href : slookup kvs "ref" with
      | none => rw [href] at h; exact absurd h.1 (by simp)
      | some r =>
          cases hn : slookup kvs "name" with
          | none => rw [hn] at h; exact absurd h.2 (by simp)
          | some j =>
              cases j with
              | str nm =>
                  exact ⟨kvs, r, nm, rfl, href, hn,
                    by simp [refOf, href], by simp [nameOf, hn]⟩
              | null => rw [hn] at h; exact absurd h.2 (by simp)
              | bool b => rw [hn] at h; exact absurd h.2 (by simp)
              | num n => rw [hn] at h; exact absurd h.2 (by simp)
              | arr xs => rw [hn] at h; exact absurd h.2 (by simp)
              | obj kvs2 => rw [hn] at h; exact absurd h.2 (by simp)
  | null => simp [wellFormedDevice] at h
  | bool b => simp [wellFormedDevice] at h
  | num n => simp [wellFormedDevice] at h
  | str s2 => simp [wellFormedDevice] at h
  | arr xs => simp [wellFormedDevice] at h

theorem pyMapM_basic_wf (ds : List Json)
    (h : ∀ d ∈ ds, wellFormedDevice d = true) :
    pyMapM formatDeviceBasic ds =
      .ok (ds.map (fun d =>
        .obj [("ref", refOf d), ("name", .str (nameOf d))])) := by
  induction ds with
  | nil => rfl
  | cons d rest ih =>
      obtain ⟨kvs, r, nm, hde, href, hn, hr, hnm⟩ :=
        wf_destruct d (h d (List.mem_cons_self d rest))
      simp only [pyMapM, List.map_cons]
      rw [ih (fun x hx => h x (List.mem_cons_of_mem d hx))]
      subst hde
      simp [formatDeviceBasic, pySubscript, href, hn, hr, ← hnm]

theorem pyMapM_room_wf (ds : List Json)
    (h : ∀ d ∈ ds, wellFormedDevice d = true) :
    pyMapM formatDeviceRoom ds =
      .ok (ds.map (fun d =>
        .obj [("ref", refOf d), ("name", .str (nameOf d)),
              ("location", locFieldOf d "location"),
              ("location2", locFieldOf d "location2")])) := by
  induction ds with
  | nil => rfl
  | cons d rest ih =>
      obtain ⟨kvs, r, nm, hde, href, hn, hr, hnm⟩ :=
        wf_destruct d (h d (List.mem_cons_self d rest))
      simp only [pyMapM, List.map_cons]
      rw [ih (fun x hx => h x (List.mem_cons_of_mem d hx))]
      subst hde
      simp [formatDeviceRoom, pySubscript, dictGet, href, hn, hr, ← hnm,
        locFieldOf]

/-- C6: against any hub device list whose entries carry a `ref` key and a
string `name` key, `list_all_devices` returns exactly the devices whose
name contains the search string case-insensitively (all devices when no or
an empty search is given), each projected to exactly `ref` and `name`, plus
`location` and `location2` when room information is requested. -/
theorem list_all_devices_filter (c : HomeSeerConfig) (net : Net)
    (fts : Option String) (resp : Json) (ds : List Json)
    (hnet : net (get_request_params c [("request", .str "getstatus")]) =
      .ok resp)
    (hdev : dictGet resp "Devices" (.arr []) = .ok (.arr ds))
    (hwf : ∀ d ∈ ds, wellFormedDevice d = true) :
    list_all_devices c net fts false =
      .ok (.arr ((matchedDevices fts ds).map
        (fun d => .obj [("ref", refOf d), ("name", .str (nameOf d))]))) ∧
    list_all_devices c net fts true =
      .ok (.arr ((matchedDevices fts ds).map
        (fun d => .obj [("ref", refOf d), ("name", .str (nameOf d)),
                        ("location", locFieldOf d "location"),
                        ("location2", locFieldOf d "location2")]))) := by
  have hga : get_all_devices c net = .ok (.arr ds) := by
    simp [get_all_devices, make_request, hnet, hdev]
  have hwf2 : ∀ d ∈ matchedDevices fts ds, wellFormedDevice d = true := by
    intro d hd
    cases fts with
    | none => exact hwf d hd
    | some s =>
        simp only [matchedDevices] at hd
        by_cases hs : s = ""
        · rw [if_pos hs] at hd; exact hwf d hd
        · rw [if_neg hs] at hd; exact hwf d (List.mem_of_mem_filter hd)
  have key : ∀ b : Bool, list_all_devices c net fts b =
      match pyMapM (if b = true then formatDeviceRoom else formatDeviceBasic)
          (matchedDevices fts ds) with
      | .error e => .error e
      | .ok result => .ok (.arr result) := by
    intro b
    cases fts with
    | none => simp only [list_all_devices, hga, pyIter, matchedDevices]
    | some s =>
        by_cases hs : s = ""
        · subst hs
          simp [list_all_devices, hga, pyIter, matchedDevices]
        · simp only [list_all_devices, hga, if_neg hs,
            pyFilter_wf (pyLower s) ds hwf, pyIter, matchedDevices]
  constructor
  · rw [key false,
      show (if false = true then formatDeviceRoom else formatDeviceBasic) =
        formatDeviceBasic from rfl,
      pyMapM_basic_wf _ hwf2]
  · rw [key true,
      show (if true = true then formatDeviceRoom else formatDeviceBasic) =
        formatDeviceRoom from rfl,
      pyMapM_room_wf _ hwf2]

/-- The spec's worked example: three named devices. -/
def livingRoomDevices : List Json :=
  [.obj [("ref", .num 1), ("name", .str "Living Room Light")],
   .obj [("ref", .num 2), ("name", .str "Bedroom Light")],
   .obj [("ref", .num 3), ("name", .str "Living Room Shutter")]]

/-- C6 (witness): searching "living" over the example devices returns
exactly the two Living Room devices, as ref+name pairs. -/
theorem list_all_devices_filter_witness :
    list_all_devices {} (fun _ => .ok (.obj [("Devices", .arr livingRoomDevices)]))
        (some "living") false =
      .ok (.arr [.obj [("ref", .num 1), ("name", .str "Living Room Light")],
                 .obj [("ref", .num 3), ("name", .str "Living Room Shutter")]]) := by
  have h :=
    (list_all_devices_filter {}
      (fun _ => .ok (.obj [("Devices", .arr livingRoomDevices)]))
      (some "living") _ livingRoomDevices rfl rfl (by decide)).1
  rw [h]
  rfl

/-! ## C10 — unconditional key access in list_all_devices -/

/-- A device object lacking the `ref` key or the `name` key (or not an
object at all). -/
def missingListKey (d : Json) : Bool :=
  match d with
  | .obj kvs => !(slookup kvs "ref").isSome || !(slookup kvs "name").isSome
  | _ => true

theorem pyMapM_basic_keyError (ds : List Json)
    (hobj : ∀ d ∈ ds, ∃ kvs, d = .obj kvs)
    (hbad : ∃ d ∈ ds, missingListKey d = true) :
    ∃ k, pyMapM formatDeviceBasic ds = .error (.keyError k) := by
  induction ds with
  | nil =>
      obtain ⟨d, hd, _⟩ := hbad
      exact absurd hd (List.not_mem_nil d)
  | cons d rest ih =>
      obtain ⟨kvs, hde⟩ := hobj d (List.mem_cons_self d rest)
      subst hde
      cases href : slookup kvs "ref" with
      | none =>
          exact ⟨"ref", by simp [pyMapM, formatDeviceBasic, pySubscript, href]⟩
      | some r =>
          cases hn : slookup kvs "name" with
          | none =>
              exact ⟨"name",
                by simp [pyMapM, formatDeviceBasic, pySubscript, href, hn]⟩
          | some nm =>
              have hbad2 : ∃ d2 ∈ rest, missingListKey d2 = true := by
                obtain ⟨d2, hd2, hb2⟩ := hbad
                rcases List.mem_cons.mp hd2 with rfl | hd2
                · exfalso
                  simp [missingListKey, href, hn] at hb2
                · exact ⟨d2, hd2, hb2⟩
              obtain ⟨k, hk⟩ :=
                ih (fun x hx => hobj x (List.mem_cons_of_mem _ hx)) hbad2
              exact ⟨k,
                by simp [pyMapM, formatDeviceBasic, pySubscript, href, hn, hk]⟩

/-- C10: `list_all_devices` reaches a `KeyError` whenever any listed device
(no filter applied) lacks a `ref` or `name` key, because those two keys are
accessed unconditionally; `get_device_info`, in contrast, tolerates
arbitrary missing fields on the found device by defaulting them to None. -/
theorem list_vs_info_missing_keys :
    (∀ (c : HomeSeerConfig) (net : Net) (resp : Json) (ds : List Json),
      net (get_request_params c [("request", .str "getstatus")]) = .ok resp →
      dictGet resp "Devices" (.arr []) = .ok (.arr ds) →
      (∀ d ∈ ds, ∃ kvs, d = .obj kvs) →
      (∃ d ∈ ds, missingListKey d = true) →
      ∃ k, list_all_devices c net none false = .error (.keyError k)) ∧
    (∀ (c : HomeSeerConfig) (net : Net) (device_ref resp : Json)
        (kvs : List (String × Json)) (rest : List Json),
      net (get_request_params c
        [("request", .str "getstatus"), ("ref", device_ref)]) = .ok resp →
      dictGet resp "Devices" (.arr []) = .ok (.arr (.obj kvs :: rest)) →
      get_device_info c net device_ref =
        .ok (.obj [("name", (slookup kvs "name").getD .null),
                   ("location", (slookup kvs "location").getD .null),
                   ("location2", (slookup kvs "location2").getD .null),
                   ("value", (slookup kvs "value").getD .null),
                   ("status", (slookup kvs "status").getD .null),
                   ("associated_devices",
                     (slookup kvs "associated_devices").getD .null)])) := by
  constructor
  · intro c net resp ds hnet hdev hobj hbad
    obtain ⟨k, hk⟩ := pyMapM_basic_keyError ds hobj hbad
    refine ⟨k, ?_⟩
    have hga : get_all_devices c net = .ok (.arr ds) := by
      simp [get_all_devices, make_request, hnet, hdev]
    simp only [list_all_devices, hga, pyIter]
    rw [show (if false = true then formatDeviceRoom else formatDeviceBasic) =
      formatDeviceBasic from rfl, hk]
  · intro c net device_ref resp kvs rest hnet hdev
    have hbr : get_device_by_ref c net device_ref = .ok (.obj kvs) := by
      simp [get_device_by_ref, make_request, hnet, hdev, truthy, pyIndex0]
    simp [get_device_info, hbr, dictGet]

/-- C10 (witness): a device without `ref` makes the listing raise
`KeyError`, while `get_device_info` on a device carrying only `ref` and
`name` returns None-defaulted fields. -/
theorem list_vs_info_missing_keys_witness :
    (∃ k, list_all_devices {}
        (fun _ => .ok (.obj [("Devices", .arr [.obj [("name", .str "B")]])]))
        none false = .error (.keyError k)) ∧
    get_device_info {}
        (fun _ => .ok (.obj
          [("Devices", .arr [.obj [("ref", .num 5), ("name", .str "X")]])]))
        (.str "5") =
      .ok (.obj [("name", .str "X"), ("location", .null),
                 ("location2", .null), ("value", .null), ("status", .null),
                 ("associated_devices", .null)]) := by
  constructor
  · exact list_vs_info_missing_keys.1 {} _ _ [.obj [("name", .str "B")]]
      rfl rfl
      (fun d hd => by rcases List.mem_singleton.mp hd with rfl; exact ⟨_, rfl⟩)
      ⟨.obj [("name", .str "B")], List.mem_singleton.mpr rfl, rfl⟩
  · have h := list_vs_info_missing_keys.2 {}
      (fun _ => .ok (.obj
        [("Devices", .arr [.obj [("ref", .num 5), ("name", .str "X")]])]))
      (.str "5")
      (.obj [("Devices", .arr [.obj [("ref", .num 5), ("name", .str "X")]])])
      [("ref", .num 5), ("name", .str "X")] [] rfl rfl
    rw [h]
    rfl

end HomeSeer
